import Mathlib

/-!
Shallow embedding of the PII detection / anonymization core of the
Bridge for Expertise, Audit and Research repository
(`src-tauri/src/pii/{types,detector,anonymizer}.rs`,
`src-tauri/src/pii/presidio/mapping.rs`, `src-tauri/src/ner/{types,inference}.rs`,
`src-tauri/src/ner/hybrid_detector.rs`).

Modelling conventions:
* Rust `f64`/`f32` confidences become `ℚ` (exact rational semantics of the
  literals appearing in the source; all comparisons in the source are on
  plain literals, no float rounding is relevant to the claims).
* Rust `String`/`&str` become Lean `String`; byte offsets become character
  indices (all concrete inputs used in this file are ASCII, where the two
  notions coincide).  A Rust slice expression `&text[a..b]`, which panics
  when `a > b` or `b > len`, becomes `str_slice`, returning `none` exactly
  in the panicking cases; functions that can reach such a slice return
  `Option`, with `none` modelling a panic.
* The third-party `regex` crate is external to the repository; the raw
  matches a compiled pattern produces on a text (`find_iter`), and the
  boolean whitelist test (`Regex::is_match`), are inputs to the embedded
  functions (`RawMatch`, `NameMatch`, and a `String → Bool` oracle).
  Everything the repository itself does with those matches is embedded
  faithfully.  Concrete instantiations of these inputs in the theorems
  below are spelled out from the source's regex literals and are noted in
  the corresponding doc comments.
* Rust `HashMap` state (`replacement_map`, `counters`) becomes an
  association list (lookup-first semantics, identical to `HashMap::get`
  for the insertion discipline used by the source) and a total function
  `EntityType → Nat` (the source only ever reads a counter through
  `entry(t).or_insert(0)`, i.e. default 0).
* `Vec::sort_by_key` is a stable sort; it is embedded as a stable
  insertion sort by the same key.
-/

/-- Entity taxonomy of `pii/types.rs` (`enum EntityType`). -/
inductive EntityType where
  | Person
  | Organization
  | Location
  | Date
  | Money
  | Law
  | Case
  | Email
  | Phone
  | Identification
  | TechnicalIdentifier
deriving DecidableEq, Repr

/-- `EntityType::should_anonymize`: only `Law` is preserved. -/
def EntityType.should_anonymize : EntityType → Bool
  | EntityType.Law => false
  | _ => true

/-- A detected entity (`struct Entity` of `pii/types.rs`).  The Rust field
`end` is a Lean keyword and is rendered `stop`. -/
structure Entity where
  entity_type : EntityType
  text : String
  start : Nat
  stop : Nat
  confidence : ℚ
  replacement : Option String
deriving DecidableEq, Repr

/-- `Entity::with_replacement`. -/
def Entity.with_replacement (e : Entity) (r : String) : Entity :=
  { e with replacement := some r }

/-- A raw regex match produced by one of the `PIIDetector` patterns: the
pattern's `EntityType`, `cap.as_str()`, `cap.start()`, `cap.end()`.
These are the iteration-order contents of the `find_iter` loops in
`PIIDetector::detect`; the regex engine itself is external input. -/
structure RawMatch where
  entity_type : EntityType
  text : String
  start : Nat
  stop : Nat
deriving DecidableEq, Repr

/-- A raw match of the `name_pattern` regex in
`PIIDetector::detect_person_names`: `cap.as_str()` and `cap.start()`. -/
structure NameMatch where
  text : String
  start : Nat
deriving DecidableEq, Repr

/-- Rust string slicing `&s[a..b]`: `none` models the panic when `a > b`
or `b > s.len()`. -/
def str_slice (s : String) (a b : Nat) : Option String :=
  if a ≤ b ∧ b ≤ s.length then some (String.mk ((s.toList.drop a).take (b - a)))
  else none

/-- Stable insertion by the `start` key, placing the new element after all
elements whose key is `≤` its own (the insertion step of a stable sort). -/
def insert_by_start (l : List Entity) (e : Entity) : List Entity :=
  match l with
  | [] => [e]
  | x :: xs => if x.start ≤ e.start then x :: insert_by_start xs e else e :: x :: xs

/-- `entities.sort_by_key(|e| e.start)` — a stable sort by start offset. -/
def sort_by_start (l : List Entity) : List Entity :=
  l.foldl insert_by_start []

/-- Loop body of `PIIDetector::remove_overlaps`: scan the (start-sorted)
entities tracking `last_end`; keep an entity starting at/after `last_end`;
otherwise, if it extends past `last_end` and its text is strictly longer
than the last kept entity's text, replace that last kept entity. -/
def remove_overlaps_loop : List Entity → List Entity → Nat → List Entity
  | [], result, _ => result
  | e :: es, result, lastEnd =>
    if lastEnd ≤ e.start then
      remove_overlaps_loop es (result ++ [e]) e.stop
    else if lastEnd < e.stop then
      match result.getLast? with
      | some last =>
        if last.text.length < e.text.length then
          remove_overlaps_loop es (result.dropLast ++ [e]) e.stop
        else
          remove_overlaps_loop es result lastEnd
      | none => remove_overlaps_loop es result lastEnd
    else
      remove_overlaps_loop es result lastEnd

/-- `PIIDetector::remove_overlaps`. -/
def remove_overlaps (l : List Entity) : List Entity :=
  remove_overlaps_loop l [] 0

/-- `PIIDetector::detect`, with the regex layer as input: `raw` is the list
of matches the pattern regexes produce on the text, in loop iteration
order, and `wl` is the `is_whitelisted` oracle (`legal_whitelist` regex
test on a matched string).  A non-`Law` candidate whose text is
whitelisted is skipped; every kept candidate gets confidence 0.85; the
candidates are then stably sorted by start and passed to
`remove_overlaps`. -/
def PIIDetector.detect (raw : List RawMatch) (wl : String → Bool) : List Entity :=
  remove_overlaps (sort_by_start (raw.filterMap fun m =>
    if m.entity_type ≠ EntityType.Law && wl m.text then none
    else some ⟨m.entity_type, m.text, m.start, m.stop, mkRat 85 100, none⟩))

/-- ASCII-faithful lowercasing of a string (`str::to_lowercase`; all inputs
relevant to the claims are ASCII). -/
def to_lower_str (s : String) : String :=
  String.mk (s.toList.map Char.toLower)

/-- Accumulating splitter behind `split_ws`. -/
def split_ws_aux : List Char → List Char → List String
  | [], cur => if cur.isEmpty then [] else [String.mk cur.reverse]
  | c :: cs, cur =>
    if c.isWhitespace then
      if cur.isEmpty then split_ws_aux cs []
      else String.mk cur.reverse :: split_ws_aux cs []
    else split_ws_aux cs (c :: cur)

/-- `str::split_whitespace` (collected): whitespace-separated words,
empty pieces dropped. -/
def split_ws (s : String) : List String :=
  split_ws_aux s.toList []

/-- The `non_name_starters` list of `PIIDetector::detect_person_names`. -/
def non_name_starters : List String :=
  ["under", "the", "this", "that", "these", "those",
   "article", "section", "paragraph", "chapter",
   "according", "pursuant", "subject", "per",
   "contact", "call", "email", "visit", "see", "meet",
   "dear", "hello", "hi", "from", "to", "re"]

/-- The `non_name_words` list of `PIIDetector::detect_person_names`. -/
def non_name_words : List String :=
  ["article", "section", "paragraph", "chapter", "regulation",
   "act", "code", "law", "statute", "rule"]

/-- The `exact_exclusions` list of `PIIDetector::detect_person_names`. -/
def exact_exclusions : List String :=
  ["united states", "supreme court", "district court",
   "court of", "state of", "city of", "county of"]

/-- The `name_start_idx` loop of `detect_person_names`: the number of
leading words whose lowercase form is a non-name starter (the loop breaks
at the first non-starter). -/
def count_leading_starters : List String → Nat
  | [] => 0
  | w :: ws =>
    if non_name_starters.contains (to_lower_str w) then count_leading_starters ws + 1
    else 0

/-- Per-match body of `PIIDetector::detect_person_names`: exclusion checks,
stripping of leading non-name words with the byte-offset adjustment, and
the final `Entity` with confidence 0.75 whose end offset is
`start + Σ word lengths + (word count - 1)`. -/
def name_candidate (m : NameMatch) : Option Entity :=
  let lower := to_lower_str m.text
  if exact_exclusions.contains lower then none
  else if non_name_words.any (fun w => (split_ws lower).contains w) then none
  else
    let words := split_ws m.text
    let k := count_leading_starters words
    if words.length ≤ k ∨ words.length - k < 2 then none
    else
      let nameWords := words.drop k
      let name := String.intercalate " " nameWords
      let start :=
        if 0 < k then m.start + (String.intercalate " " (words.take k)).length + 1
        else m.start
      some ⟨EntityType.Person, name, start,
            start + (nameWords.map String.length).sum + nameWords.length - 1,
            mkRat 75 100, none⟩

/-- `PIIDetector::detect_person_names`, with the `name_pattern` regex
matches as input. -/
def PIIDetector.detect_person_names (ms : List NameMatch) : List Entity :=
  ms.filterMap name_candidate

/-- Half-open interval overlap test of `HybridDetector::has_overlap` /
`find_overlapping_index`: `!(e.end <= entity.start || e.start >= entity.end)`. -/
def entity_overlaps (e other : Entity) : Bool :=
  !(decide (e.stop ≤ other.start) || decide (other.stop ≤ e.start))

/-- `HybridDetector::has_overlap`. -/
def has_overlap (entities : List Entity) (entity : Entity) : Bool :=
  entities.any (fun e => entity_overlaps e entity)

/-- `HybridDetector::find_overlapping_index`. -/
def find_overlapping_index (entities : List Entity) (entity : Entity) : Option Nat :=
  entities.findIdx? (fun e => entity_overlaps e entity)

/-- Tail of `Vec::dedup_by`: drop an element equal (under `f`, called with
the current element first and the last retained element second) to the
last retained element, otherwise retain it. -/
def dedup_by_loop (f : Entity → Entity → Bool) : Entity → List Entity → List Entity
  | _, [] => []
  | kept, x :: xs =>
    if f x kept then dedup_by_loop f kept xs
    else x :: dedup_by_loop f x xs

/-- `Vec::dedup_by`: removes all but the first of consecutive elements
satisfying the relation. -/
def dedup_by (f : Entity → Entity → Bool) : List Entity → List Entity
  | [] => []
  | x :: xs => x :: dedup_by_loop f x xs

/-- The duplicate-span relation used by both merges:
same entity type, same start, same end. -/
def same_span (a b : Entity) : Bool :=
  decide (a.entity_type = b.entity_type) && decide (a.start = b.start)
    && decide (a.stop = b.stop)

/-- Per-candidate body of `HybridDetector::merge_entities`: a
non-overlapping NER candidate is appended; an overlapping one replaces
(in `merged`) the first pattern entity it overlaps, but only if its
confidence is strictly greater. -/
def merge_step (pattern_entities : List Entity) (merged : List Entity)
    (ner_entity : Entity) : List Entity :=
  if has_overlap pattern_entities ner_entity then
    match find_overlapping_index pattern_entities ner_entity with
    | some idx =>
      match pattern_entities.get? idx with
      | some pe =>
        if pe.confidence < ner_entity.confidence then
          match find_overlapping_index merged pe with
          | some mergeIdx => merged.set mergeIdx ner_entity
          | none => merged
        else merged
      | none => merged
    | none => merged
  else merged ++ [ner_entity]

/-- `HybridDetector::merge_entities` (Layer 1 + 2 fusion). -/
def merge_entities (pattern_entities ner_entities : List Entity) : List Entity :=
  dedup_by same_span (sort_by_start (ner_entities.foldl (merge_step pattern_entities) pattern_entities))

/-- The Presidio confidence boost of `HybridDetector::merge_all_layers`:
`Identification | Email | Phone => 0.05`, otherwise 0. -/
def presidio_boost : EntityType → ℚ
  | EntityType.Identification => mkRat 5 100
  | EntityType.Email => mkRat 5 100
  | EntityType.Phone => mkRat 5 100
  | _ => 0

/-- Per-candidate body of `HybridDetector::merge_all_layers`: like
`merge_step` but the Presidio candidate's confidence is boosted before
the comparison. -/
def merge_all_step (hybrid_entities : List Entity) (merged : List Entity)
    (presidio_entity : Entity) : List Entity :=
  if has_overlap hybrid_entities presidio_entity then
    match find_overlapping_index hybrid_entities presidio_entity with
    | some idx =>
      match hybrid_entities.get? idx with
      | some he =>
        if he.confidence < presidio_entity.confidence + presidio_boost presidio_entity.entity_type then
          match find_overlapping_index merged he with
          | some mergeIdx => merged.set mergeIdx presidio_entity
          | none => merged
        else merged
      | none => merged
    | none => merged
  else merged ++ [presidio_entity]

/-- `HybridDetector::merge_all_layers` (fold the Presidio layer into the
Layer 1 + 2 result). -/
def merge_all_layers (hybrid_entities presidio_entities : List Entity) : List Entity :=
  dedup_by same_span
    (sort_by_start (presidio_entities.foldl (merge_all_step hybrid_entities) hybrid_entities))

/-- `enum DetectionMode` of `ner/hybrid_detector.rs`. -/
inductive DetectionMode where
  | PatternOnly
  | NerOnly
  | Hybrid
  | Full
  | PresidioOnly
deriving DecidableEq, Repr

/-- Environment of one `HybridDetector::detect` call on a fixed text:
the regex-layer inputs (as in `PIIDetector.detect` /
`detect_person_names`), the readiness flag and converted prediction
result of the NER pipeline (`NerPipeline::is_ready`,
`convert_ner_to_entities ∘ predict`), and the enabled flag and converted
result of the Presidio layer (`PresidioManager::is_enabled`,
`EntityTypeMapper::convert_entities ∘ analyze`).  The two external layers
are black boxes per the system's own design; their outputs are inputs
here. -/
structure HybridEnv where
  patternRaw : List RawMatch
  wl : String → Bool
  nameRaw : List NameMatch
  nerReady : Bool
  nerPredict : Except Unit (List Entity)
  presidioEnabled : Bool
  presidioAnalyze : Except Unit (List Entity)

/-- `HybridDetector::detect_with_patterns`: pattern detection plus the
person-name pass, re-sorted by start (no second overlap removal). -/
def detect_with_patterns (env : HybridEnv) : List Entity :=
  sort_by_start (PIIDetector.detect env.patternRaw env.wl
    ++ PIIDetector.detect_person_names env.nameRaw)

/-- `HybridDetector::detect_with_ner`: pattern fallback when the pipeline
is not ready, otherwise the (converted) prediction, propagating its
error. -/
def detect_with_ner (env : HybridEnv) : Except Unit (List Entity) :=
  if env.nerReady = false then Except.ok (detect_with_patterns env)
  else env.nerPredict

/-- The NER contribution inside `HybridDetector::detect_hybrid`: empty
when the pipeline is not ready or errors. -/
def ner_layer_entities (env : HybridEnv) : List Entity :=
  if env.nerReady then
    match env.nerPredict with
    | Except.ok es => es
    | Except.error _ => []
  else []

/-- `HybridDetector::detect_hybrid` (never an error). -/
def detect_hybrid (env : HybridEnv) : Except Unit (List Entity) :=
  Except.ok (merge_entities (detect_with_patterns env) (ner_layer_entities env))

/-- `HybridDetector::detect_with_presidio`: hybrid fallback when the
Presidio layer is disabled, otherwise the converted analysis result,
propagating its error. -/
def detect_with_presidio (env : HybridEnv) : Except Unit (List Entity) :=
  if env.presidioEnabled = false then detect_hybrid env
  else env.presidioAnalyze

/-- The Presidio contribution inside `HybridDetector::detect_full`: empty
when the layer is disabled or errors. -/
def presidio_layer_entities (env : HybridEnv) : List Entity :=
  if env.presidioEnabled then
    match env.presidioAnalyze with
    | Except.ok es => es
    | Except.error _ => []
  else []

/-- `HybridDetector::detect_full`. -/
def detect_full (env : HybridEnv) : Except Unit (List Entity) :=
  match detect_hybrid env with
  | Except.ok hs => Except.ok (merge_all_layers hs (presidio_layer_entities env))
  | Except.error e => Except.error e

/-- `HybridDetector::detect`, dispatching on the configured mode. -/
def HybridDetector.detect (env : HybridEnv) : DetectionMode → Except Unit (List Entity)
  | DetectionMode.PatternOnly => Except.ok (detect_with_patterns env)
  | DetectionMode.NerOnly => detect_with_ner env
  | DetectionMode.Hybrid => detect_hybrid env
  | DetectionMode.Full => detect_full env
  | DetectionMode.PresidioOnly => detect_with_presidio env

/-- `struct AnonymizationSettings` of `pii/types.rs`. -/
structure AnonymizationSettings where
  entity_types : List EntityType
  confidence_threshold : ℚ
  preserve_legal_references : Bool
  consistent_replacement : Bool
  language : String
deriving DecidableEq, Repr

/-- `AnonymizationSettings::default`. -/
def default_settings : AnonymizationSettings :=
  { entity_types :=
      [EntityType.Person, EntityType.Organization, EntityType.Location,
       EntityType.Date, EntityType.Email, EntityType.Phone,
       EntityType.Identification]
    confidence_threshold := mkRat 7 10
    preserve_legal_references := true
    consistent_replacement := true
    language := "en" }

/-- `struct AnonymizationResult` of `pii/types.rs`. -/
structure AnonymizationResult where
  original_text : String
  anonymized_text : String
  entities : List Entity
  replacements : List (String × String)
deriving DecidableEq, Repr

/-- The mutable state of `struct Anonymizer`: `replacement_map` as an
association list with lookup-first semantics and `counters` as a total
function with default 0. -/
structure AnonState where
  replacement_map : List (String × String)
  counters : EntityType → Nat

/-- The state of `Anonymizer::new` (both maps empty). -/
def anon_state_empty : AnonState :=
  { replacement_map := [], counters := fun _ => 0 }

/-- `HashMap::get` on the association-list model. -/
def assoc_lookup : List (String × String) → String → Option String
  | [], _ => none
  | (k, v) :: rest, key => if k = key then some v else assoc_lookup rest key

/-- Helper behind `Anonymizer::to_letter`: the source's `while num > 0`
loop, prepending `(b'A' + (num - 1) % 26) as char` and then replacing
`num` by `(num - 1) / 26`.  The first argument is recursion fuel: the
loop variable strictly decreases, so fuel `n` is enough for starting
value `n`; fuel keeps the definition structurally recursive and hence
kernel-computable. -/
def to_letter_loop : Nat → Nat → List Char → List Char
  | 0, _, acc => acc
  | _ + 1, 0, acc => acc
  | fuel + 1, m + 1, acc => to_letter_loop fuel (m / 26) (Char.ofNat (65 + m % 26) :: acc)

/-- `Anonymizer::to_letter` (spreadsheet-column letters; `0` defensively
maps to "A"). -/
def Anonymizer.to_letter (n : Nat) : String :=
  if n = 0 then "A" else String.mk (to_letter_loop n n [])

/-- `Anonymizer::get_or_create_replacement`: reuse the mapped replacement
for the verbatim entity text, otherwise bump the per-type counter and
build the placeholder (letters for Person/Organization/Location, decimal
for the rest, the verbatim text for `Law`), recording it in the map. -/
def Anonymizer.get_or_create_replacement (st : AnonState) (e : Entity) :
    String × AnonState :=
  match assoc_lookup st.replacement_map e.text with
  | some r => (r, st)
  | none =>
    let c := st.counters e.entity_type + 1
    let repl :=
      match e.entity_type with
      | EntityType.Person => "[PERSON-" ++ Anonymizer.to_letter c ++ "]"
      | EntityType.Organization => "[ORGANIZATION-" ++ Anonymizer.to_letter c ++ "]"
      | EntityType.Location => "[LOCATION-" ++ Anonymizer.to_letter c ++ "]"
      | EntityType.Date => "[DATE-" ++ toString c ++ "]"
      | EntityType.Money => "[AMOUNT-" ++ toString c ++ "]"
      | EntityType.Email => "[EMAIL-" ++ toString c ++ "]"
      | EntityType.Phone => "[PHONE-" ++ toString c ++ "]"
      | EntityType.Case => "[CASE-" ++ toString c ++ "]"
      | EntityType.Identification => "[ID-" ++ toString c ++ "]"
      | EntityType.TechnicalIdentifier => "[TECH-ID-" ++ toString c ++ "]"
      | EntityType.Law => e.text
    (repl,
     { replacement_map := (e.text, repl) :: st.replacement_map
       counters := fun t => if t = e.entity_type then c else st.counters t })

/-- `Anonymizer::generate_replacements`: map over the entities in order,
threading the anonymizer state; a non-anonymized type keeps its own text
as replacement. -/
def Anonymizer.generate_replacements (st : AnonState) :
    List Entity → List Entity × AnonState
  | [] => ([], st)
  | e :: es =>
    let stepResult :=
      if e.entity_type.should_anonymize then Anonymizer.get_or_create_replacement st e
      else (e.text, st)
    let rest := Anonymizer.generate_replacements stepResult.2 es
    (e.with_replacement stepResult.1 :: rest.1, rest.2)

/-- Loop of `Anonymizer::apply_anonymization`: copy the gap before each
entity, then its replacement (or original text), advance the cursor to
the entity's end, and append the tail.  `none` models the slice panic
when the cursor has moved past the next entity's start (or past the end
of the text). -/
def apply_anonymization_loop (text : String) :
    List Entity → Nat → String → Option String
  | [], lastPos, acc =>
    match str_slice text lastPos text.length with
    | some tail => some (acc ++ tail)
    | none => none
  | e :: es, lastPos, acc =>
    match str_slice text lastPos e.start with
    | some gap =>
      let piece :=
        match e.replacement with
        | some r => r
        | none => e.text
      apply_anonymization_loop text es e.stop (acc ++ gap ++ piece)
    | none => none

/-- `Anonymizer::apply_anonymization`. -/
def Anonymizer.apply_anonymization (text : String) (entities : List Entity) :
    Option String :=
  if entities.isEmpty then some text
  else apply_anonymization_loop text entities 0 ""

/-- `Anonymizer::anonymize` on one text, with the regex layer as input
(`patternRaw`/`wl` feed `PIIDetector.detect`, `nameRaw` feeds
`detect_person_names`): clear state unless `consistent_replacement`,
detect, add person names, re-sort, filter by threshold and selected
types, drop `Law` when preserving legal references, assign replacements
and rewrite.  `none` models the rewrite panic. -/
def Anonymizer.anonymize (st : AnonState) (text : String)
    (settings : AnonymizationSettings) (patternRaw : List RawMatch)
    (wl : String → Bool) (nameRaw : List NameMatch) :
    Option (AnonymizationResult × AnonState) :=
  let st1 := if settings.consistent_replacement then st else anon_state_empty
  let entities0 := PIIDetector.detect patternRaw wl
  let entities1 := entities0 ++ PIIDetector.detect_person_names nameRaw
  let entities2 := sort_by_start entities1
  let entities3 := entities2.filter fun e =>
    decide (settings.confidence_threshold ≤ e.confidence)
      && settings.entity_types.contains e.entity_type
  let entities4 :=
    if settings.preserve_legal_references then
      entities3.filter fun e => decide (e.entity_type ≠ EntityType.Law)
    else entities3
  let gen := Anonymizer.generate_replacements st1 entities4
  match Anonymizer.apply_anonymization text gen.1 with
  | some out =>
    some ({ original_text := text
            anonymized_text := out
            entities := gen.1
            replacements := gen.1.map fun e => (e.text, e.replacement.getD "") },
          gen.2)
  | none => none

/-- BIO label set of `ner/types.rs` (`enum NerLabel`). -/
inductive NerLabel where
  | O
  | BeginPerson
  | InsidePerson
  | BeginOrganization
  | InsideOrganization
  | BeginLocation
  | InsideLocation
  | BeginMisc
  | InsideMisc
deriving DecidableEq, Repr

/-- `NerLabel::is_begin`. -/
def NerLabel.is_begin : NerLabel → Bool
  | NerLabel.BeginPerson => true
  | NerLabel.BeginOrganization => true
  | NerLabel.BeginLocation => true
  | NerLabel.BeginMisc => true
  | _ => false

/-- `NerLabel::is_inside`. -/
def NerLabel.is_inside : NerLabel → Bool
  | NerLabel.InsidePerson => true
  | NerLabel.InsideOrganization => true
  | NerLabel.InsideLocation => true
  | NerLabel.InsideMisc => true
  | _ => false

/-- `NerLabel::entity_type` (the type string without the B or I tag). -/
def NerLabel.entity_type : NerLabel → Option String
  | NerLabel.O => none
  | NerLabel.BeginPerson => some "PER"
  | NerLabel.InsidePerson => some "PER"
  | NerLabel.BeginOrganization => some "ORG"
  | NerLabel.InsideOrganization => some "ORG"
  | NerLabel.BeginLocation => some "LOC"
  | NerLabel.InsideLocation => some "LOC"
  | NerLabel.BeginMisc => some "MISC"
  | NerLabel.InsideMisc => some "MISC"

/-- `struct TokenPrediction` of `ner/types.rs` (confidence as `ℚ`). -/
structure TokenPrediction where
  token : String
  label : NerLabel
  confidence : ℚ
  start : Nat
  stop : Nat
deriving DecidableEq, Repr

/-- `struct NerEntity` of `ner/types.rs`. -/
structure NerEntity where
  text : String
  entity_type : String
  confidence : ℚ
  start : Nat
  stop : Nat
  tokens : List TokenPrediction
deriving DecidableEq, Repr

/-- Sum of the constituent tokens' confidences
(`entity.tokens.iter().map(|t| t.confidence).sum()`). -/
def sum_conf (l : List TokenPrediction) : ℚ :=
  (l.map TokenPrediction.confidence).sum

/-- One iteration of the BIO loop in `NerPipeline::extract_entities`,
acting on the optional open entity and the emitted list: `O` flushes;
a begin label flushes and opens; an inside label extends the open entity
only when the types match (appending a space and the token text, moving
the end, pushing the token and recomputing the confidence as the mean
over all constituent tokens), and is otherwise dropped. -/
def bio_step (cur : Option NerEntity) (acc : List NerEntity)
    (p : TokenPrediction) : Option NerEntity × List NerEntity :=
  match p.label with
  | NerLabel.O =>
    match cur with
    | some e => (none, acc ++ [e])
    | none => (none, acc)
  | l =>
    if l.is_begin then
      let flushed :=
        match cur with
        | some e => acc ++ [e]
        | none => acc
      match l.entity_type with
      | some t =>
        (some ⟨p.token, t, p.confidence, p.start, p.stop, [p]⟩, flushed)
      | none => (none, flushed)
    else if l.is_inside then
      match cur with
      | some e =>
        match l.entity_type with
        | some t =>
          if e.entity_type = t then
            let toks := e.tokens ++ [p]
            (some ⟨e.text ++ " " ++ p.token, e.entity_type,
                   sum_conf toks / (toks.length : ℚ), e.start, p.stop, toks⟩,
             acc)
          else (some e, acc)
        | none => (some e, acc)
      | none => (none, acc)
    else (cur, acc)

/-- Fold of `bio_step` over the predictions, flushing any still-open
entity at the end of the sequence. -/
def extract_entities_loop : List TokenPrediction → Option NerEntity →
    List NerEntity → List NerEntity
  | [], cur, acc =>
    match cur with
    | some e => acc ++ [e]
    | none => acc
  | p :: ps, cur, acc =>
    let next := bio_step cur acc p
    extract_entities_loop ps next.1 next.2

/-- `NerPipeline::extract_entities`. -/
def NerPipeline.extract_entities (predictions : List TokenPrediction) :
    List NerEntity :=
  extract_entities_loop predictions none []

/-- `struct PresidioEntity` of `pii/presidio/types.rs` (the fields used by
the mapper; the Rust field `end` is rendered `stop`, `score` as `ℚ`). -/
structure PresidioEntity where
  entity_type : String
  start : Nat
  stop : Nat
  score : ℚ
deriving DecidableEq, Repr

/-- `EntityTypeMapper::to_internal`: the static Presidio-type →
internal-type table of `presidio/mapping.rs` (an unmapped string yields
`none`). -/
def EntityTypeMapper.to_internal : String → Option EntityType
  | "PERSON" => some EntityType.Person
  | "LOCATION" => some EntityType.Location
  | "GPE" => some EntityType.Location
  | "LOC" => some EntityType.Location
  | "ORGANIZATION" => some EntityType.Organization
  | "ORG" => some EntityType.Organization
  | "EMAIL_ADDRESS" => some EntityType.Email
  | "EMAIL" => some EntityType.Email
  | "PHONE_NUMBER" => some EntityType.Phone
  | "PHONE" => some EntityType.Phone
  | "DATE_TIME" => some EntityType.Date
  | "DATE" => some EntityType.Date
  | "TIME" => some EntityType.Date
  | "DATE_OF_BIRTH" => some EntityType.Date
  | "MONEY" => some EntityType.Money
  | "CREDIT_CARD" => some EntityType.Identification
  | "IBAN_CODE" => some EntityType.Identification
  | "US_BANK_NUMBER" => some EntityType.Identification
  | "CRYPTO" => some EntityType.Identification
  | "US_SSN" => some EntityType.Identification
  | "US_ITIN" => some EntityType.Identification
  | "US_PASSPORT" => some EntityType.Identification
  | "US_DRIVER_LICENSE" => some EntityType.Identification
  | "UK_NHS" => some EntityType.Identification
  | "UK_NINO" => some EntityType.Identification
  | "AU_ABN" => some EntityType.Identification
  | "AU_ACN" => some EntityType.Identification
  | "AU_TFN" => some EntityType.Identification
  | "AU_MEDICARE" => some EntityType.Identification
  | "IN_AADHAAR" => some EntityType.Identification
  | "IN_PAN" => some EntityType.Identification
  | "IN_VOTER" => some EntityType.Identification
  | "SG_NRIC_FIN" => some EntityType.Identification
  | "IT_FISCAL_CODE" => some EntityType.Identification
  | "IT_DRIVER_LICENSE" => some EntityType.Identification
  | "IT_VAT_CODE" => some EntityType.Identification
  | "IT_PASSPORT" => some EntityType.Identification
  | "IT_IDENTITY_CARD" => some EntityType.Identification
  | "ES_NIF" => some EntityType.Identification
  | "ES_NIE" => some EntityType.Identification
  | "PL_PESEL" => some EntityType.Identification
  | "PL_NIP" => some EntityType.Identification
  | "PL_REGON" => some EntityType.Identification
  | "MEDICAL_LICENSE" => some EntityType.Identification
  | "NRP" => some EntityType.Identification
  | "IP_ADDRESS" => some EntityType.TechnicalIdentifier
  | "URL" => some EntityType.TechnicalIdentifier
  | "MAC_ADDRESS" => some EntityType.TechnicalIdentifier
  | _ => none

/-- `EntityTypeMapper::convert_entity`.  The outer `Option` models control
flow: `none` is the Rust panic of `text[start..end]` when `start > end`
(only `end <= text.len()` is checked by the source); `some none` is an
entity dropped because its type is unmapped or `end` is out of bounds;
`some (some e)` is a converted entity. -/
def EntityTypeMapper.convert_entity (pe : PresidioEntity) (text : String) :
    Option (Option Entity) :=
  match EntityTypeMapper.to_internal pe.entity_type with
  | none => some none
  | some t =>
    if pe.stop ≤ text.length then
      match str_slice text pe.start pe.stop with
      | some s => some (some ⟨t, s, pe.start, pe.stop, pe.score, none⟩)
      | none => none
    else some none

/-- `EntityTypeMapper::convert_entities` (`filter_map` over
`convert_entity`); `none` models the panic of any element aborting the
whole call. -/
def EntityTypeMapper.convert_entities : List PresidioEntity → String →
    Option (List Entity)
  | [], _ => some []
  | pe :: pes, text =>
    match EntityTypeMapper.convert_entity pe text with
    | none => none
    | some none => EntityTypeMapper.convert_entities pes text
    | some (some e) =>
      match EntityTypeMapper.convert_entities pes text with
      | some rest => some (e :: rest)
      | none => none

/-- Pairwise non-overlap check over an entity list, the property stated in
the spec's non-overlap invariant: any two entities `a`, `b` at different
positions satisfy `a.end ≤ b.start ∨ b.end ≤ a.start`. -/
def entities_non_overlapping : List Entity → Bool
  | [] => true
  | e :: es =>
    es.all (fun e2 => decide (e.stop ≤ e2.start) || decide (e2.stop ≤ e.start))
      && entities_non_overlapping es

/-- Needle-at-head test behind `contains_sub`. -/
def chars_lead : List Char → List Char → Bool
  | [], _ => true
  | _ :: _, [] => false
  | n :: ns, h :: hs => decide (n = h) && chars_lead ns hs

/-- Occurrence test of a needle anywhere in a haystack. -/
def chars_occur (needle : List Char) : List Char → Bool
  | [] => needle.isEmpty
  | c :: cs => chars_lead needle (c :: cs) || chars_occur needle cs

/-- Substring containment (`str::contains` on the texts of the claims). -/
def contains_sub (hay needle : String) : Bool :=
  chars_occur needle.toList hay.toList

/-- Modelled from the spec: the spreadsheet-column (bijective base-26)
encoding over the alphabet A..Z described by the letter-counter property
(1 → "A", 26 → "Z", 27 → "AA"), to be compared with the source's
`Anonymizer::to_letter`. -/
def spec_letter_encoding (n : Nat) : List Char :=
  if n ≤ 26 then [Char.ofNat (65 + (n - 1))]
  else spec_letter_encoding ((n - 1) / 26) ++ [Char.ofNat (65 + (n - 1) % 26)]
termination_by n
decreasing_by
  exact Nat.div_lt_of_lt_mul (by omega)

/-- Modelled from the claim's words for C9: an entity is converted exactly
when its type string maps to an internal type and its end offset is
within the source text, its text being the slice
`source_text[start..end]`; otherwise it is dropped. -/
def convert_spec (text : String) (pe : PresidioEntity) : Option Entity :=
  match EntityTypeMapper.to_internal pe.entity_type with
  | none => none
  | some t =>
    if pe.stop ≤ text.length then
      some ⟨t, String.mk ((text.toList.drop pe.start).take (pe.stop - pe.start)),
            pe.start, pe.stop, pe.score, none⟩
    else none

/-- Whitelist oracle for the concrete texts below: none of the matched
strings involved ("Mr. John Doe", "John Doe", "Fifth Amendment" as a
non-`Law` candidate never reaches the whitelist test, etc.) matches any
`legal_whitelist` regex of `initialize_legal_whitelist`
(`(Article|Section|Paragraph) \d+`, `GDPR`, `[A-Z]{2,4} (Act|Code|Regulation)`,
`\d+ U.S.C. § \d+`, `(First|…|Eleventh) Amendment`,
`(Constitutional|Federal|State) (Law|Statute|Regulation)`), so the oracle
is constantly false on them. -/
def wl_false : String → Bool := fun _ => false

/-- Raw pattern matches on the text "Mr. John Doe": the only `PIIDetector`
pattern matching it is the Person title pattern
`\b(?:Mr\.|Mrs\.|Ms\.|Dr\.|Prof\.)\s+[A-Z][a-z]+(?:\s+[A-Z][a-z]+)*\b`,
matching the whole text at offsets [0,12). -/
def mr_john_doe_raw : List RawMatch :=
  [⟨EntityType.Person, "Mr. John Doe", 0, 12⟩]

/-- Matches of the `name_pattern` regex
`\b[A-Z][a-z]+(?:\s+[A-Z][a-z]+){1,3}\b` on "Mr. John Doe": "Mr" is not
followed by a space-separated capitalized word (the next char is "."),
so the single match is "John Doe" at offset 4. -/
def mr_john_doe_names : List NameMatch :=
  [⟨"John Doe", 4⟩]

/-- The hybrid-detector environment for the text "Mr. John Doe" with both
optional layers unavailable. -/
def mr_john_doe_env : HybridEnv :=
  { patternRaw := mr_john_doe_raw
    wl := wl_false
    nameRaw := mr_john_doe_names
    nerReady := false
    nerPredict := Except.ok []
    presidioEnabled := false
    presidioAnalyze := Except.ok [] }

/-- Raw pattern matches on the text
"Under Article 6 GDPR, John Doe filed a complaint.": the `Law` pattern
`\b(?:Article|Section|§)\s+\d+(?:\(\d+\))?(?:\s+[A-Z][A-Za-z\s]+)?`
matches "Article 6 GDPR" at [6,20) (the greedy optional tail stops at the
comma), and the `Law` pattern `\bGDPR\b` matches at [16,20); both live in
the `Law` pattern vector, in this insertion order.  No other pattern
matches. -/
def article6_raw : List RawMatch :=
  [⟨EntityType.Law, "Article 6 GDPR", 6, 20⟩,
   ⟨EntityType.Law, "GDPR", 16, 20⟩]

/-- Matches of `name_pattern` on
"Under Article 6 GDPR, John Doe filed a complaint.": "Under Article" at 0
(two capitalized words; "GDPR" does not continue it, being all-caps) and
"John Doe" at 22. -/
def article6_names : List NameMatch :=
  [⟨"Under Article", 0⟩, ⟨"John Doe", 22⟩]

/-- Matches of `name_pattern` on "Fifth Amendment": the whole text, at
offset 0.  No `PIIDetector::detect` pattern matches this text, and the
legal whitelist pattern
`\b(?:First|Second|…|Eleventh)\s+Amendment\b` does match it. -/
def fifth_amendment_names : List NameMatch :=
  [⟨"Fifth Amendment", 0⟩]

/-- Matches of `name_pattern` on "John Doe called John Doe twice.":
"John Doe" at 0 and at 16 ("called" and "twice" are lowercase and stop
the matches).  No `PIIDetector::detect` pattern matches this text. -/
def john_doe_twice_names : List NameMatch :=
  [⟨"John Doe", 0⟩, ⟨"John Doe", 16⟩]

/-- Decidable equality on `Except`, component-wise (used to evaluate
detector results on concrete inputs). -/
instance {α β : Type} [DecidableEq α] [DecidableEq β] : DecidableEq (Except α β) := fun a b =>
  match a, b with
  | Except.ok x, Except.ok y =>
    if h : x = y then isTrue (by rw [h]) else isFalse (by simp [h])
  | Except.error x, Except.error y =>
    if h : x = y then isTrue (by rw [h]) else isFalse (by simp [h])
  | Except.ok _, Except.error _ => isFalse (by simp)
  | Except.error _, Except.ok _ => isFalse (by simp)

/-- C1 (failing-input evidence): on the text "Mr. John Doe",
`HybridDetector.detect` in `PatternOnly` mode returns the title-pattern
entity "Mr. John Doe" [0,12) and the name-heuristic entity "John Doe"
[4,12), which overlap — `detect_with_patterns` appends the
`detect_person_names` output to the overlap-free `PIIDetector::detect`
output with no second overlap-removal pass, so the claimed non-overlap
invariant fails. -/
theorem detect_pattern_only_returns_overlapping_entities :
    HybridDetector.detect mr_john_doe_env DetectionMode.PatternOnly =
      Except.ok
        [⟨EntityType.Person, "Mr. John Doe", 0, 12, mkRat 85 100, none⟩,
         ⟨EntityType.Person, "John Doe", 4, 12, mkRat 75 100, none⟩] ∧
    entities_non_overlapping
        [⟨EntityType.Person, "Mr. John Doe", 0, 12, mkRat 85 100, none⟩,
         ⟨EntityType.Person, "John Doe", 4, 12, mkRat 75 100, none⟩] = false := by
  exact ⟨by decide, by decide⟩

/-- C2 (failing-input evidence): `Anonymizer.anonymize` on the text
"Mr. John Doe" with default settings reaches the text-rewriting scan with
the overlapping entities [0,12) and [4,12); after consuming the first the
cursor is at 12 and the slice `text[12..4]` panics (modelled by `none`),
so `anonymize` is not total. -/
theorem anonymize_panics_on_title_name_overlap :
    (Anonymizer.anonymize anon_state_empty "Mr. John Doe" default_settings
        mr_john_doe_raw wl_false mr_john_doe_names).map Prod.fst = none := by
  decide

/-- C3 counterexample: the input "Fifth Amendment" matches the legal
whitelist pattern `\b(?:First|...|Fifth|...)\s+Amendment\b`, yet with
`preserve_legal_references = true` (default settings) the anonymized text
is "[PERSON-A]" and no longer contains the whitelisted substring: the
person-name heuristic does not consult the whitelist, flags
"Fifth Amendment" as a Person at confidence 0.75, and it is rewritten. -/
theorem anonymize_rewrites_whitelisted_fifth_amendment :
    (Anonymizer.anonymize anon_state_empty "Fifth Amendment" default_settings
        [] wl_false fifth_amendment_names).map
      (fun p => (p.1.anonymized_text, contains_sub p.1.anonymized_text "Fifth Amendment"))
      = some ("[PERSON-A]", false) := by
  decide

/-- C3 (amended): a whitelist match that is not itself flagged by the
person-name heuristic survives anonymization: on the spec's own example
text "Under Article 6 GDPR, John Doe filed a complaint." with
`preserve_legal_references = true` (default settings), the anonymized
text still contains the exact substring "Article 6 GDPR" while
"John Doe" is replaced. -/
theorem anonymize_preserves_article_6_gdpr :
    (Anonymizer.anonymize anon_state_empty
        "Under Article 6 GDPR, John Doe filed a complaint." default_settings
        article6_raw wl_false article6_names).map
      (fun p => (p.1.anonymized_text, contains_sub p.1.anonymized_text "Article 6 GDPR"))
      = some ("Under Article 6 GDPR, [PERSON-A] filed a complaint.", true) := by
  decide

/-- C4: unavailability of an optional layer never makes
`HybridDetector.detect` return an error: with the NER pipeline not ready,
`NerOnly` mode returns exactly the `PatternOnly` result, and with the
Presidio layer disabled, `PresidioOnly` mode returns exactly the `Hybrid`
result; both results are `ok`. -/
theorem detect_degrades_without_optional_layers (env : HybridEnv) :
    (env.nerReady = false →
      HybridDetector.detect env DetectionMode.NerOnly =
        HybridDetector.detect env DetectionMode.PatternOnly ∧
      ∃ es, HybridDetector.detect env DetectionMode.NerOnly = Except.ok es) ∧
    (env.presidioEnabled = false →
      HybridDetector.detect env DetectionMode.PresidioOnly =
        HybridDetector.detect env DetectionMode.Hybrid ∧
      ∃ es, HybridDetector.detect env DetectionMode.PresidioOnly = Except.ok es) := by
  constructor
  · intro h
    refine ⟨by simp [HybridDetector.detect, detect_with_ner, h], ?_⟩
    exact ⟨detect_with_patterns env, by simp [HybridDetector.detect, detect_with_ner, h]⟩
  · intro h
    refine ⟨by simp [HybridDetector.detect, detect_with_presidio, h], ?_⟩
    exact ⟨merge_entities (detect_with_patterns env) (ner_layer_entities env),
      by simp [HybridDetector.detect, detect_with_presidio, detect_hybrid, h]⟩

/-- C4 witness: the fallback equalities instantiated at a concrete
environment with both optional layers unavailable. -/
theorem detect_degrades_without_optional_layers_witness :
    HybridDetector.detect
        ⟨[], wl_false, [], false, Except.ok [], false, Except.ok []⟩
        DetectionMode.NerOnly =
      HybridDetector.detect
        ⟨[], wl_false, [], false, Except.ok [], false, Except.ok []⟩
        DetectionMode.PatternOnly ∧
    HybridDetector.detect
        ⟨[], wl_false, [], false, Except.ok [], false, Except.ok []⟩
        DetectionMode.PresidioOnly =
      HybridDetector.detect
        ⟨[], wl_false, [], false, Except.ok [], false, Except.ok []⟩
        DetectionMode.Hybrid :=
  ⟨((detect_degrades_without_optional_layers
      ⟨[], wl_false, [], false, Except.ok [], false, Except.ok []⟩).1 rfl).1,
   ((detect_degrades_without_optional_layers
      ⟨[], wl_false, [], false, Except.ok [], false, Except.ok []⟩).2 rfl).1⟩

/-- C5: merging the pattern entity "John" [0,4) at confidence 0.7 with the
NER entity "John Doe" [0,8) at confidence 0.9 yields exactly one entity,
"John Doe" [0,8) at confidence 0.9 (the overlapping higher-confidence
candidate replaces the pattern entity in place). -/
theorem merge_entities_confidence_tie_break :
    merge_entities
      [⟨EntityType.Person, "John", 0, 4, mkRat 7 10, none⟩]
      [⟨EntityType.Person, "John Doe", 0, 8, mkRat 9 10, none⟩] =
      [⟨EntityType.Person, "John Doe", 0, 8, mkRat 9 10, none⟩] := by
  decide

/-- C6: anonymizing "John Doe called John Doe twice." with default
settings (`consistent_replacement = true`) rewrites both occurrences of
"John Doe" to the same placeholder "[PERSON-A]": the second mention hits
the `replacement_map` entry keyed on the verbatim text. -/
theorem anonymize_consistent_replacement_john_doe :
    (Anonymizer.anonymize anon_state_empty "John Doe called John Doe twice."
        default_settings [] wl_false john_doe_twice_names).map Prod.fst =
      some
        { original_text := "John Doe called John Doe twice."
          anonymized_text := "[PERSON-A] called [PERSON-A] twice."
          entities :=
            [⟨EntityType.Person, "John Doe", 0, 8, mkRat 75 100, some "[PERSON-A]"⟩,
             ⟨EntityType.Person, "John Doe", 16, 24, mkRat 75 100, some "[PERSON-A]"⟩]
          replacements := [("John Doe", "[PERSON-A]"), ("John Doe", "[PERSON-A]")] } := by
  decide

/-- C7: BIO decoding of ("New", B-LOC, s1, e1), ("York", I-LOC),
("City", I-LOC, end e3) yields exactly one entity with text
"New York City", type LOC, span [s1, e3), and confidence equal to the
mean of the three tokens' confidences. -/
theorem extract_entities_bio_merge_example (c1 c2 c3 : ℚ)
    (s1 e1 s2 e2 s3 e3 : Nat) :
    NerPipeline.extract_entities
      [⟨"New", NerLabel.BeginLocation, c1, s1, e1⟩,
       ⟨"York", NerLabel.InsideLocation, c2, s2, e2⟩,
       ⟨"City", NerLabel.InsideLocation, c3, s3, e3⟩] =
    [⟨"New York City", "LOC", (c1 + c2 + c3) / 3, s1, e3,
      [⟨"New", NerLabel.BeginLocation, c1, s1, e1⟩,
       ⟨"York", NerLabel.InsideLocation, c2, s2, e2⟩,
       ⟨"City", NerLabel.InsideLocation, c3, s3, e3⟩]⟩] := by
  simp [NerPipeline.extract_entities, extract_entities_loop, bio_step, sum_conf,
        NerLabel.is_begin, NerLabel.is_inside, NerLabel.entity_type]
  ring_nf

/-- C7 witness: the BIO merge example at the concrete confidences
0.9, 0.88, 0.85 and the offsets of "New York City". -/
theorem extract_entities_bio_merge_example_witness :
    NerPipeline.extract_entities
      [⟨"New", NerLabel.BeginLocation, mkRat 9 10, 0, 3⟩,
       ⟨"York", NerLabel.InsideLocation, mkRat 22 25, 4, 8⟩,
       ⟨"City", NerLabel.InsideLocation, mkRat 17 20, 9, 13⟩] =
    [⟨"New York City", "LOC", (mkRat 9 10 + mkRat 22 25 + mkRat 17 20) / 3, 0, 13,
      [⟨"New", NerLabel.BeginLocation, mkRat 9 10, 0, 3⟩,
       ⟨"York", NerLabel.InsideLocation, mkRat 22 25, 4, 8⟩,
       ⟨"City", NerLabel.InsideLocation, mkRat 17 20, 9, 13⟩]⟩] :=
  extract_entities_bio_merge_example (mkRat 9 10) (mkRat 22 25) (mkRat 17 20) 0 3 4 8 9 13

/-- C8: for an inside (I-X) token, the BIO step leaves the state
unchanged when no entity is open, leaves the open entity completely
unchanged (dropping the token) when its type differs from X, and when
the types match appends the token text after a space, moves the end to
the token's end, and recomputes the confidence as the mean over all
constituent tokens. -/
theorem bio_step_strict_continuation (cur : Option NerEntity)
    (acc : List NerEntity) (p : TokenPrediction) (t : String)
    (hin : p.label.is_inside = true) (ht : p.label.entity_type = some t) :
    (cur = none → bio_step cur acc p = (none, acc)) ∧
    (∀ e, cur = some e → e.entity_type ≠ t → bio_step cur acc p = (some e, acc)) ∧
    (∀ e, cur = some e → e.entity_type = t →
      bio_step cur acc p =
        (some ⟨e.text ++ " " ++ p.token, e.entity_type,
               sum_conf (e.tokens ++ [p]) / (((e.tokens ++ [p]).length : ℕ) : ℚ),
               e.start, p.stop, e.tokens ++ [p]⟩, acc)) := by
  refine ⟨?_, ?_, ?_⟩
  · rintro rfl
    cases hl : p.label <;> rw [hl] at hin <;>
      simp [NerLabel.is_inside] at hin <;>
      simp [bio_step, hl, NerLabel.is_begin, NerLabel.is_inside]
  · rintro e rfl hne
    cases hl : p.label <;> rw [hl] at hin ht <;>
      simp [NerLabel.is_inside] at hin <;>
      (simp only [NerLabel.entity_type, Option.some.injEq] at ht
       subst ht
       simp [bio_step, hl, NerLabel.is_begin, NerLabel.is_inside,
             NerLabel.entity_type, hne])
  · rintro e rfl heq
    cases hl : p.label <;> rw [hl] at hin ht <;>
      simp [NerLabel.is_inside] at hin <;>
      (simp only [NerLabel.entity_type, Option.some.injEq] at ht
       subst ht
       simp [bio_step, hl, NerLabel.is_begin, NerLabel.is_inside,
             NerLabel.entity_type, heq])

/-- C8 witness: an I-PER token against an open LOC entity is dropped and
the open entity is unchanged. -/
theorem bio_step_strict_continuation_witness :
    bio_step
      (some ⟨"New York", "LOC", mkRat 9 10, 0, 8,
        [⟨"New", NerLabel.BeginLocation, mkRat 9 10, 0, 3⟩]⟩) []
      ⟨"Smith", NerLabel.InsidePerson, mkRat 4 5, 9, 14⟩ =
      (some ⟨"New York", "LOC", mkRat 9 10, 0, 8,
        [⟨"New", NerLabel.BeginLocation, mkRat 9 10, 0, 3⟩]⟩, []) :=
  (bio_step_strict_continuation
      (some ⟨"New York", "LOC", mkRat 9 10, 0, 8,
        [⟨"New", NerLabel.BeginLocation, mkRat 9 10, 0, 3⟩]⟩) []
      ⟨"Smith", NerLabel.InsidePerson, mkRat 4 5, 9, 14⟩ "PER" rfl rfl).2.1
    ⟨"New York", "LOC", mkRat 9 10, 0, 8,
      [⟨"New", NerLabel.BeginLocation, mkRat 9 10, 0, 3⟩]⟩ rfl (by decide)

/-- C9 counterexample: a remote entity whose span is inverted
(start 3 > end 1, both offsets inside the text "hello") makes
`convert_entities` panic (the source checks only `end <= text.len()`
before slicing `text[start..end]`), aborting the whole batch instead of
dropping the entity individually and returning the rest. -/
theorem convert_entities_panics_on_inverted_span :
    EntityTypeMapper.convert_entities [⟨"PERSON", 3, 1, mkRat 1 2⟩] "hello" = none := by
  decide

/-- C9 (amended): for remote entities with `start ≤ end`,
`convert_entities` is total and returns exactly the entities whose type
string maps to an internal type and whose end offset is within the
source text, each carrying the slice `source_text[start..end]` as its
text; the others are dropped individually. -/
theorem convert_entities_drops_unmapped_and_out_of_bounds
    (pes : List PresidioEntity) (text : String)
    (h : ∀ pe ∈ pes, pe.start ≤ pe.stop) :
    EntityTypeMapper.convert_entities pes text =
      some (pes.filterMap (convert_spec text)) := by
  induction pes with
  | nil => rfl
  | cons pe rest ih =>
    have hpe : pe.start ≤ pe.stop := h pe (by simp)
    have hrest := ih (fun q hq => h q (List.mem_cons_of_mem _ hq))
    simp only [EntityTypeMapper.convert_entities, List.filterMap_cons]
    cases hmap : EntityTypeMapper.to_internal pe.entity_type with
    | none => simp [EntityTypeMapper.convert_entity, convert_spec, hmap, hrest]
    | some t =>
      by_cases hb : pe.stop ≤ text.length
      · have hslice : str_slice text pe.start pe.stop =
            some (String.mk ((text.toList.drop pe.start).take (pe.stop - pe.start))) := by
          simp [str_slice, hpe, hb]
        simp [EntityTypeMapper.convert_entity, convert_spec, hmap, hb, hslice, hrest]
      · simp [EntityTypeMapper.convert_entity, convert_spec, hmap, hb, hrest]

/-- C9 witness: a mixed batch over "hello world" — a mapped in-bounds
PERSON, an unmapped type, a mapped out-of-bounds ORG, and a mapped
in-bounds LOC — converts to exactly the first and last entities. -/
theorem convert_entities_drops_unmapped_and_out_of_bounds_witness :
    EntityTypeMapper.convert_entities
        [⟨"PERSON", 0, 5, mkRat 1 2⟩, ⟨"FOO", 0, 2, mkRat 1 1⟩,
         ⟨"ORG", 6, 99, mkRat 1 1⟩, ⟨"LOC", 6, 11, mkRat 3 4⟩] "hello world" =
      some
        (List.filterMap (convert_spec "hello world")
          [⟨"PERSON", 0, 5, mkRat 1 2⟩, ⟨"FOO", 0, 2, mkRat 1 1⟩,
           ⟨"ORG", 6, 99, mkRat 1 1⟩, ⟨"LOC", 6, 11, mkRat 3 4⟩]) :=
  convert_entities_drops_unmapped_and_out_of_bounds
    [⟨"PERSON", 0, 5, mkRat 1 2⟩, ⟨"FOO", 0, 2, mkRat 1 1⟩,
     ⟨"ORG", 6, 99, mkRat 1 1⟩, ⟨"LOC", 6, 11, mkRat 3 4⟩] "hello world" (by decide)

/-- Helper: the `to_letter` loop is the identity once the loop variable
reaches zero, for any fuel. -/
theorem to_letter_loop_zero (fuel : Nat) (acc : List Char) :
    to_letter_loop fuel 0 acc = acc := by
  cases fuel <;> rfl

/-- Helper: with enough fuel, the `to_letter` loop prepends exactly the
spreadsheet-column encoding of its argument. -/
theorem to_letter_loop_spec :
    ∀ fuel n acc, 1 ≤ n → n ≤ fuel →
      to_letter_loop fuel n acc = spec_letter_encoding n ++ acc := by
  intro fuel
  induction fuel with
  | zero => intro n acc h1 h2; omega
  | succ f ih =>
    intro n acc h1 h2
    match n, h1 with
    | m + 1, _ =>
      rw [to_letter_loop]
      by_cases hm : m + 1 ≤ 26
      · have hz : m / 26 = 0 := Nat.div_eq_of_lt (by omega)
        rw [hz, to_letter_loop_zero, spec_letter_encoding]
        rw [if_pos hm]
        have hmod : m % 26 = m := Nat.mod_eq_of_lt (by omega)
        simp [hmod]
      · have h26 : 26 ≤ m := by omega
        have h1h : 1 ≤ m / 26 := (Nat.one_le_div_iff (by norm_num)).mpr h26
        have h2h : m / 26 ≤ f := le_trans (Nat.div_le_self m 26) (by omega)
        rw [ih (m / 26) _ h1h h2h]
        conv_rhs => rw [spec_letter_encoding]
        rw [if_neg hm]
        simp

/-- C10: `Anonymizer::to_letter` maps 1 to "A", 26 to "Z", 27 to "AA",
and is in general the bijective base-26 (spreadsheet-column) encoding
over A..Z; and a newly created Person / Organization / Location
placeholder (verbatim text not yet in the replacement map) carries the
letter encoding of the freshly incremented per-type counter. -/
theorem to_letter_spreadsheet_encoding :
    Anonymizer.to_letter 1 = "A" ∧ Anonymizer.to_letter 26 = "Z" ∧
    Anonymizer.to_letter 27 = "AA" ∧
    (∀ n, 1 ≤ n → Anonymizer.to_letter n = String.mk (spec_letter_encoding n)) ∧
    (∀ st e, assoc_lookup st.replacement_map e.text = none →
      e.entity_type = EntityType.Person →
      (Anonymizer.get_or_create_replacement st e).1 =
        "[PERSON-" ++ Anonymizer.to_letter (st.counters EntityType.Person + 1) ++ "]") ∧
    (∀ st e, assoc_lookup st.replacement_map e.text = none →
      e.entity_type = EntityType.Organization →
      (Anonymizer.get_or_create_replacement st e).1 =
        "[ORGANIZATION-" ++
          Anonymizer.to_letter (st.counters EntityType.Organization + 1) ++ "]") ∧
    (∀ st e, assoc_lookup st.replacement_map e.text = none →
      e.entity_type = EntityType.Location →
      (Anonymizer.get_or_create_replacement st e).1 =
        "[LOCATION-" ++ Anonymizer.to_letter (st.counters EntityType.Location + 1) ++ "]") := by
  refine ⟨by decide, by decide, by decide, ?_, ?_, ?_, ?_⟩
  · intro n hn
    unfold Anonymizer.to_letter
    rw [if_neg (by omega)]
    rw [to_letter_loop_spec n n [] hn le_rfl]
    simp
  · intro st e hlk htp
    simp [Anonymizer.get_or_create_replacement, hlk, htp]
  · intro st e hlk htp
    simp [Anonymizer.get_or_create_replacement, hlk, htp]
  · intro st e hlk htp
    simp [Anonymizer.get_or_create_replacement, hlk, htp]

/-- C10 witness: the general encoding claim at 703 (= "AAA") and the
fresh-Person placeholder claim at the empty anonymizer state. -/
theorem to_letter_spreadsheet_encoding_witness :
    Anonymizer.to_letter 703 = String.mk (spec_letter_encoding 703) ∧
    (Anonymizer.get_or_create_replacement anon_state_empty
        ⟨EntityType.Person, "John Doe", 0, 8, mkRat 9 10, none⟩).1 =
      "[PERSON-" ++
        Anonymizer.to_letter (anon_state_empty.counters EntityType.Person + 1) ++ "]" :=
  ⟨to_letter_spreadsheet_encoding.2.2.2.1 703 (by norm_num),
   to_letter_spreadsheet_encoding.2.2.2.2.1 anon_state_empty
     ⟨EntityType.Person, "John Doe", 0, 8, mkRat 9 10, none⟩ rfl rfl⟩
